import Mathlib

/-!
Verification development for the Telegram-username generation and checking
pipeline (username_generator.py, username_rules.py, username_store.py,
username_checker.py, username_checker_pyrogram.py, bot.py,
attached_assets/main.py).

Python strings are modelled as `String`/`List Char`; wall-clock timestamps
(Python floats from `time.time()`) as `ℚ`; network interaction as explicit
worlds (records describing the remote responses) together with event traces
(`Ev`) listing the requests issued and the sleeps performed; `random.randint`
and `random.choice` draws as explicit function parameters.
-/

namespace S2P

/-- Characters of a string lowercased; models Python `str.lower()` for the
ASCII usernames this program works with (`Char.toLower` lowercases ASCII). -/
def lower (s : String) : List Char := s.data.map Char.toLower

/-- Membership of `sub` as a contiguous run inside `l`; models Python
`sub in s` on strings. -/
def containsSeq (sub : List Char) : List Char → Bool
| [] => sub.isEmpty
| c :: t => sub.isPrefixOf (c :: t) || containsSeq sub t

/-- String-level wrapper for `containsSeq`: Python `sub in s`. -/
def containsStr (s sub : String) : Bool := containsSeq sub.data s.data

/-- Some adjacent pair of characters `a, b` in `l` satisfies `p a` and `q b`. -/
def adjPair (p q : Char → Bool) : List Char → Bool
| a :: b :: t => (p a && q b) || adjPair p q (b :: t)
| _ => false

/-- Some adjacent triple of characters in `l` satisfies `p`. -/
def adjTriple (p : Char → Char → Char → Bool) : List Char → Bool
| a :: b :: c :: t => p a b c || adjTriple p (b :: c :: t)
| _ => false

/-- One of the literal words occurs as a prefix (regex `^(w1|w2|...)`). -/
def startsWithAny (l : List Char) (ws : List String) : Bool :=
  ws.any (fun w => w.data.isPrefixOf l)

/-- One of the literal words occurs as a suffix (regex `(w1|w2|...)$`). -/
def endsWithAny (l : List Char) (ws : List String) : Bool :=
  ws.any (fun w => w.data.isSuffixOf l)

/-- One of the literal words occurs as a substring (regex `.*w.*`). -/
def containsAny (l : List Char) (ws : List String) : Bool :=
  ws.any (fun w => containsSeq w.data l)

/-- An occurrence of `sub` immediately followed by a character satisfying `p`
(regex such as `admin[0-9]`). -/
def containsSeqThen (sub : List Char) (p : Char → Bool) : List Char → Bool
| [] => false
| c :: t =>
    (sub.isPrefixOf (c :: t) &&
      (match (c :: t).drop sub.length with
       | d :: _ => p d
       | [] => false)) || containsSeqThen sub p t

/-- A character satisfying `p` immediately followed by `sub`
(regex such as `[0-9]admin`). -/
def containsThenSeq (p : Char → Bool) (sub : List Char) : List Char → Bool
| [] => false
| c :: t => (p c && sub.isPrefixOf t) || containsThenSeq p sub t

/-- ASCII lowercase letter; the character class `[a-z]` applied to an
already-lowercased string (`re.IGNORECASE` folds `[a-zA-Z]` onto this). -/
def isLet (c : Char) : Bool := 'a' ≤ c && c ≤ 'z'

/-- Continuation of the obfuscation regexes `[aA][^a-zA-Z]*[dD]...`: the
remaining pattern letters must appear in order with only non-letters
between consecutive ones. Matching is deterministic: a pattern letter can
never be skipped by `[^a-zA-Z]*`. -/
def gapCont (pat : List Char) : List Char → Bool
| [] => pat.isEmpty
| c :: t =>
    match pat with
    | [] => true
    | p :: ps => if c = p then gapCont ps t else if !isLet c then gapCont (p :: ps) t else false

/-- Search form of the obfuscation regexes: `.*` lets the first pattern
letter start anywhere. -/
def gapSearch (pat : List Char) : List Char → Bool
| [] => pat.isEmpty
| c :: t =>
    (match pat with
     | [] => true
     | p :: ps => if c = p then gapCont ps t else false) || gapSearch pat t

/-- Hamming distance on the common prefix of two character lists (the lists
compared here always have equal length). -/
def hamming : List Char → List Char → Nat
| a :: as, b :: bs => (if a = b then 0 else 1) + hamming as bs
| _, _ => 0

/-! ### username_rules.py -/

/-- HURUF_RATA from username_rules.py. -/
def HURUF_RATA : List Char := "aceimnorsuvwxz".data

/-- HURUF_TIDAK_RATA from username_rules.py. -/
def HURUF_TIDAK_RATA : List Char := "bdfghjklpqty".data

/-! ### username_generator.py — UsernameGenerator

Each rule is a pure function of the base name and of the random draws the
Python code takes (`random.randint` positions as `Fin 30 → Nat`,
`random.choice` letters as `Fin 30 → Char`, coin flips as `Fin 30 → Bool`).
Out-of-range indexing, which `random.randint` never produces for base names
of length ≥ 1, is totalised with `List.getD`. -/

namespace UsernameGenerator

/-- ganhur: substitute the letter at a random position by another letter of
the same category (HURUF_RATA or HURUF_TIDAK_RATA); 30 draws. `subR i` /
`subT i` are the `random.choice` results for iteration `i`. -/
def ganhur (b : String) (pos : Fin 30 → Nat) (subR subT : Fin 30 → Char) : List String :=
  (List.finRange 30).map (fun i =>
    let p := pos i
    let c := b.data.getD p 'a'
    if HURUF_RATA.contains c then ⟨b.data.set p (subR i)⟩
    else if HURUF_TIDAK_RATA.contains c then ⟨b.data.set p (subT i)⟩
    else b)

/-- First-occurrence replacement; models Python `str.replace(old, new, 1)`. -/
def replaceFirst (old new : Char) : List Char → List Char
| [] => []
| c :: t => if c = old then new :: t else c :: replaceFirst old new t

/-- canon: swap the first `i` to `l` (or, failing that, the first `l` to
`i`); the loop body is draw-independent, so the 30 iterations repeat one
string. -/
def canon (b : String) : List String :=
  (List.finRange 30).map (fun _ =>
    if b.data.contains 'i' then ⟨replaceFirst 'i' 'l' b.data⟩
    else if b.data.contains 'l' then ⟨replaceFirst 'l' 'i' b.data⟩
    else b)

/-- sop: for each position, double the character at that position
(`base_name[:pos] + base_name[pos] + base_name[pos:]`). -/
def sop (b : String) : List String :=
  (List.range b.length).map (fun p =>
    ⟨b.data.take p ++ [b.data.getD p 'a'] ++ b.data.drop p⟩)

/-- scanon: append the letter s, 30 times over. -/
def scanon (b : String) : List String :=
  (List.finRange 30).map (fun _ => b ++ "s")

/-- Transposition of positions `p` and `p+1`; models the Python list swap
`new_name[pos], new_name[pos+1] = new_name[pos+1], new_name[pos]`. An
out-of-range position leaves the list unchanged. -/
def swapAdj : List Char → Nat → List Char
| a :: b :: t, 0 => b :: a :: t
| a :: t, p + 1 => a :: swapAdj t p
| l, _ => l

/-- switch: swap two adjacent characters at a random position (30 draws);
base names shorter than 2 characters are returned unchanged. -/
def switch (b : String) (pos : Fin 30 → Nat) : List String :=
  (List.finRange 30).map (fun i =>
    if 1 < b.length then ⟨swapAdj b.data (pos i)⟩ else b)

/-- kurkuf: remove the character at a random position (30 draws); base names
shorter than 2 characters are returned unchanged. -/
def kurkuf (b : String) (pos : Fin 30 → Nat) : List String :=
  (List.finRange 30).map (fun i =>
    if 1 < b.length then
      let p := pos i
      ⟨b.data.take p ++ b.data.drop (p + 1)⟩
    else b)

/-- tamhur mode strings (`"TAMPING"`, `"TAMDAL"`, `"BOTH"`). -/
def tamhur (b : String) (mode : String) (edgeLetter : Fin 15 → Char)
    (atStart : Fin 15 → Bool) (midPos : Fin 15 → Nat) (midLetter : Fin 15 → Char) :
    List String :=
  (if mode = "TAMPING" || mode = "BOTH" then
    (List.finRange 15).map (fun i =>
      if atStart i then ⟨[edgeLetter i]⟩ ++ b else b ++ ⟨[edgeLetter i]⟩)
  else []) ++
  (if mode = "TAMDAL" || mode = "BOTH" then
    (List.finRange 15).map (fun i =>
      if 1 < b.length then
        let p := midPos i
        ⟨b.data.take p ++ [midLetter i] ++ b.data.drop p⟩
      else b)
  else [])

end UsernameGenerator

/-! ### username_store.py — UsernameStore

`_store` maps a base name to the set of `(generated_name, timestamp)` pairs;
`_completed_generations` is the set of completed base names. Python sets are
modelled as lists with membership semantics (an element is added only when
not already present). -/

structure UsernameStore where
  store : List (String × List (String × ℚ))
  completedGenerations : List String
deriving DecidableEq, Repr

/-- The freshly constructed store (`UsernameStore.__init__`). -/
def UsernameStore.init : UsernameStore := ⟨[], []⟩

/-- Lookup of `_store[base_name]` (`None` when the key is absent). -/
def storeLookup (st : List (String × List (String × ℚ))) (b : String) :
    Option (List (String × ℚ)) :=
  (st.find? (fun p => p.1 = b)).map (fun p => p.2)

/-- Dict assignment `_store[base_name] = v`: replace the (unique) entry of
key `b`, adding it when absent. -/
def storeSet : List (String × List (String × ℚ)) → String → List (String × ℚ) →
    List (String × List (String × ℚ))
| [], b, v => [(b, v)]
| p :: t, b, v => if p.1 = b then (b, v) :: t else p :: storeSet t b v

/-- `add_username`: record `generated_name` under `base_name` with the
current timestamp. -/
def UsernameStore.addUsername (s : UsernameStore) (baseName generatedName : String)
    (now : ℚ) : UsernameStore :=
  let entry := (storeLookup s.store baseName).getD []
  let entry2 := if entry.contains (generatedName, now) then entry
    else entry ++ [(generatedName, now)]
  { s with store := storeSet s.store baseName entry2 }

/-- `is_generated`: was `username` previously generated from `base_name`?
No timestamp is consulted here; entries only disappear through the separate
`cleanup_old_entries` sweep. -/
def UsernameStore.isGenerated (s : UsernameStore) (baseName username : String) : Bool :=
  match storeLookup s.store baseName with
  | none => false
  | some entries => entries.any (fun e => username = e.1)

/-! ### bot.py — check_generated_usernames, candidate selection

bot.py line 420: `generated_usernames = list(set(generated_usernames))[:30]`.
This deduplicated, 30-truncated list is what the batch checking loop
receives. Python's set iteration order is unspecified; `List.dedup` fixes
one admissible order, and the facts proved below depend only on membership.
Nothing in `check_generated_usernames` consults the `UsernameStore`. -/

def checkGeneratedCandidates (generated : List String) : List String :=
  generated.dedup.take 30

/-! ### config.py — RESERVED_WORDS (a Python set literal; duplicated words
listed once, as set construction dedupes them) -/

def RESERVED_WORDS : List String := [
  "telegram", "admin", "support", "security", "settings", "contacts",
  "chat", "group", "channel", "bot", "test", "null", "undefined",
  "official", "help", "info", "news", "store", "contact",
  "system", "api", "app", "dev", "root", "mod", "moderator",
  "database", "server", "client", "web", "mobile", "desktop", "user",
  "account", "profile", "login", "logout", "register", "signup", "signin",
  "helpdesk", "assistance", "service", "customer", "care",
  "feedback", "report", "issue", "problem", "inquiry",
  "question", "answer", "faq", "team", "staff", "operator", "agent",
  "verify", "verification", "confirmed", "authentic", "real",
  "true", "genuine", "original", "legitimate", "auth", "authenticated",
  "secure", "protected", "safe", "privacy", "private",
  "payment", "wallet", "money", "cash", "crypto", "bitcoin", "finance",
  "bank", "premium", "pay", "purchase", "buy", "sell", "price", "cost",
  "facebook", "meta", "instagram", "whatsapp", "twitter", "tiktok",
  "youtube", "google", "microsoft", "apple", "amazon", "netflix",
  "spotify", "paypal", "visa", "mastercard", "snapchat", "reddit",
  "porn", "adult", "xxx", "sex", "hack", "crack", "cheat", "spam",
  "free", "offer", "discount", "deal", "promo", "promotion", "winner",
  "prize", "limited", "hurry"]

/-! ### username_checker.py — TelegramUsernameChecker, static screening

`_levenshtein_distance` builds the classic DP row by row; translated
directly, with the single argument swap of the source done once in the
wrapper. -/

/-- Inner loop of `_levenshtein_distance`: build the tail of `current_row`
from `previous_row`, where `last` is the most recently appended cell. -/
def levRowGo (c1 : Char) : List Char → List Nat → Nat → List Nat
| c2 :: cs, p0 :: p1 :: ps, last =>
    let insertions := p1 + 1
    let deletions := last + 1
    let substitutions := p0 + (if c1 = c2 then 0 else 1)
    let m := min insertions (min deletions substitutions)
    m :: levRowGo c1 cs (p1 :: ps) m
| _, _, _ => []

/-- One outer-loop step: `current_row = [i+1] ++ ...`. -/
def levRow (c1 : Char) (s2 : List Char) (previousRow : List Nat) (i1 : Nat) : List Nat :=
  i1 :: levRowGo c1 s2 previousRow i1

/-- Outer loop over `s1`, threading `previous_row` and the row index. -/
def levLoop (s2 : List Char) : List Char → List Nat → Nat → List Nat
| [], prev, _ => prev
| c1 :: cs, prev, i => levLoop s2 cs (levRow c1 s2 prev (i + 1)) (i + 1)

/-- Distance with `len(s1) ≥ len(s2)` already arranged. -/
def levCore (s1 s2 : List Char) : Nat :=
  if s2.length = 0 then s1.length
  else (levLoop s2 s1 (List.range (s2.length + 1)) 0).getLastD 0

/-- `_levenshtein_distance`: the wrapper swaps once so the second string is
the shorter one. -/
def levenshteinDistance (s1 s2 : List Char) : Nat :=
  if s1.length < s2.length then levCore s2 s1 else levCore s1 s2

/-- Character counts in first-occurrence order; models the `char_counts`
dict built by `is_banned` and `_calculate_entropy`. -/
def charCounts (l : List Char) : List (Char × Nat) :=
  (l.foldl (fun acc c => if acc.contains c then acc else acc ++ [c]) []).map
    (fun c => (c, l.count c))

/-- The Shannon-entropy test `self._calculate_entropy(username_lower) < 2.5`,
stated in exact arithmetic: with `n = len(text)` and counts `c_i`,
`-Σ (c_i/n)·log2(c_i/n) < 5/2` is equivalent (for `n > 0`; the call sites
guard `len > 5`) to `n^(2n) < 2^(5n) · Π c_i^(2 c_i)`. -/
def entropyBelowCutoff (l : List Char) : Bool :=
  let n := l.length
  n ^ (2 * n) < 2 ^ (5 * n) * ((charCounts l).foldl (fun a p => a * p.2 ^ (2 * p.2)) 1)

/-- Level-2 per-word character-similarity test:
`len(set(reserved) ∩ set(username_lower)) >= min(len(reserved), len(username)) * 0.75`,
under the guard that both have length ≥ 4; `k ≥ m * 0.75` is written exactly
as `3 * m ≤ 4 * k` (0.75 is dyadic, so the float comparison is exact). -/
def charSimilar (reserved lowered : List Char) : Bool :=
  let k := ((reserved.foldl (fun acc c => if acc.contains c then acc else acc ++ [c]) []).filter
    (fun c => lowered.contains c)).length
  3 * min reserved.length lowered.length ≤ 4 * k

/-- Level 2 of `is_banned`: substring either way, character similarity, or
Levenshtein distance ≤ 2 against any reserved word (the latter two only when
both strings have length ≥ 4). `len(username)` equals `len(username_lower)`. -/
def level2Banned (lowered : List Char) : Bool :=
  RESERVED_WORDS.any (fun reserved =>
    containsSeq reserved.data lowered || containsSeq lowered reserved.data ||
    (4 ≤ reserved.length && 4 ≤ lowered.length && charSimilar reserved.data lowered) ||
    (4 ≤ reserved.length && 4 ≤ lowered.length &&
      levenshteinDistance reserved.data lowered ≤ 2))

/-! Level 3 of `is_banned`: the `banned_patterns` regex list, searched with
`re.IGNORECASE`; every pattern's character classes are case-folded here by
applying them to the lowercased username. Each disjunct below carries the
regex it translates. -/

def officialPrefixes : List String :=
  ["telegram", "tg", "admin", "support", "help", "info", "news", "bot", "official",
   "service", "verify", "staff", "team", "mod", "contact", "care", "assist", "auth",
   "security", "privacy"]

def officialSuffixes : List String :=
  ["official", "support", "help", "admin", "mod", "team", "staff", "service", "verify",
   "account", "contact", "care", "assist", "auth", "security", "privacy"]

def scamSubstrings : List String :=
  ["_adm", "_support", "_admin", "_team", "_official", "_help", "_service", "_verify",
   "_staff", "_mod"]

def sequentialPrefixes : List String :=
  ["abcd", "efgh", "ijkl", "mnop", "qrst", "uvwx", "wxyz", "1234", "2345", "3456",
   "4567", "5678", "6789", "7890"]

def officialSoundingWords : List String :=
  ["support", "admin", "help", "service", "official", "team", "staff", "mod",
   "contact", "care", "telegram", "assist", "verify", "auth", "security", "privacy"]

def brandWords : List String :=
  ["apple", "google", "meta", "facebook", "instagram", "whatsapp", "microsoft",
   "amazon", "netflix", "spotify", "paypal", "visa", "youtube", "twitter", "tiktok"]

def serviceWords : List String :=
  ["helpdesk", "customer", "service", "agent", "representative", "operator"]

def financeWords : List String :=
  ["premium", "wallet", "crypto", "bitcoin", "payment", "finance", "bank", "money"]

def adultWords : List String :=
  ["porn", "adult", "xxx", "sex", "hack", "crack", "cheat", "spam"]

def scammerWords : List String :=
  ["real", "true", "genuine", "legit", "verified", "original"]

/-- Character-class membership helper for classes such as `[0o]`. -/
def inClass (cls : String) (c : Char) : Bool := cls.data.contains c

/-- Anchored `^[a-z]-then-[0-9]` patterns with repetition bounds,
such as `^[a-z]{1,2}[0-9]{1,2}$` (the leading letters are maximal, so a
take/drop split is equivalent to the anchored regex). -/
def lettersThenDigits (maxL maxD : Nat) (l : List Char) : Bool :=
  let pre := l.takeWhile isLet
  let suf := l.dropWhile isLet
  1 ≤ pre.length && pre.length ≤ maxL && 1 ≤ suf.length && suf.length ≤ maxD &&
    suf.all Char.isDigit

/-- Anchored `^[0-9]-then-[a-z]` patterns, such as `^[0-9]{1,2}[a-z]{1,2}$`. -/
def digitsThenLetters (maxD maxL : Nat) (l : List Char) : Bool :=
  let pre := l.takeWhile Char.isDigit
  let suf := l.dropWhile Char.isDigit
  1 ≤ pre.length && pre.length ≤ maxD && 1 ≤ suf.length && suf.length ≤ maxL &&
    suf.all isLet

/-- The `banned_patterns` list of `is_banned`, applied to the lowercased
username. -/
def bannedPatternsMatch (lo : List Char) : Bool :=
  -- r'^[a-z]{1,5}$'
  (1 ≤ lo.length && lo.length ≤ 5 && lo.all isLet) ||
  -- r'^[0-9]+$'
  (1 ≤ lo.length && lo.all Char.isDigit) ||
  -- r'^[a-z][0-9]$' and r'^[a-z]{1,2}[0-9]{1,2}$'
  lettersThenDigits 1 1 lo || lettersThenDigits 2 2 lo ||
  -- r'^[0-9][a-z]$' and r'^[0-9]{1,2}[a-z]{1,2}$'
  digitsThenLetters 1 1 lo || digitsThenLetters 2 2 lo ||
  -- r'^(telegram|tg|admin|...).*'
  startsWithAny lo officialPrefixes ||
  -- r'.*(official|support|...)$'
  endsWithAny lo officialSuffixes ||
  -- r'.*(_adm|_support|_admin|admin[0-9]|[0-9]admin|_team|_official|_help|_service|_verify|_staff|_mod).*'
  containsAny lo scamSubstrings ||
  containsSeqThen "admin".data Char.isDigit lo ||
  containsThenSeq Char.isDigit "admin".data lo ||
  -- r'.*(.)\1{2,}.*' (three or more of the same character in a row)
  adjTriple (fun a b c => a = b && b = c) lo ||
  -- r'^[_.].*|.*[_.]$|.*[_]{2,}.*|.*[.]{2,}.*'
  (match lo with | c :: _ => inClass "_." c | [] => false) ||
  (match lo.getLast? with | some c => inClass "_." c | none => false) ||
  containsSeq "__".data lo || containsSeq "..".data lo ||
  -- r'^abcd.*|^efgh.*|...|^7890.*'
  startsWithAny lo sequentialPrefixes ||
  -- r'.*[0-9][a-z][0-9].*' and r'.*[a-z][0-9][a-z].*'
  adjTriple (fun a b c => a.isDigit && isLet b && c.isDigit) lo ||
  adjTriple (fun a b c => isLet a && b.isDigit && isLet c) lo ||
  -- r'.*[_.-][_.-].*'
  adjPair (inClass "_.-") (inClass "_.-") lo ||
  -- r'^\d.*\d$'
  (match lo with
   | c :: rest => c.isDigit && (match rest.getLast? with
     | some d => d.isDigit
     | none => false)
   | [] => false) ||
  -- r'.*[0o][0o].*', r'.*[1il][1il].*', r'.*[0o][1il].*', r'.*[1il][0o].*'
  adjPair (inClass "0o") (inClass "0o") lo ||
  adjPair (inClass "1il") (inClass "1il") lo ||
  adjPair (inClass "0o") (inClass "1il") lo ||
  adjPair (inClass "1il") (inClass "0o") lo ||
  -- r'.*[5s][5s].*', r'.*[3e][3e].*', r'.*[4a][4a].*', r'.*[8b][8b].*'
  adjPair (inClass "5s") (inClass "5s") lo ||
  adjPair (inClass "3e") (inClass "3e") lo ||
  adjPair (inClass "4a") (inClass "4a") lo ||
  adjPair (inClass "8b") (inClass "8b") lo ||
  -- official-sounding, brand, support/service, financial, explicit, scammer substrings
  containsAny lo officialSoundingWords ||
  containsAny lo brandWords ||
  containsAny lo serviceWords ||
  containsAny lo financeWords ||
  containsAny lo adultWords ||
  containsAny lo scammerWords ||
  -- obfuscation regexes a-d-m-i-n, s-u-p-p-o-r-t, o-f-f-i-c-i-a-l with
  -- `[^a-zA-Z]*` between the letters
  gapSearch "admin".data lo ||
  gapSearch "support".data lo ||
  gapSearch "official".data lo ||
  -- r'.*[a-z][A-Z].*' and r'.*[A-Z]{2,}.*': under IGNORECASE each matches
  -- any two adjacent letters
  adjPair isLet isLet lo ||
  adjPair isLet isLet lo

/-- Level 4 of `is_banned`: statistical checks on `username_lower` (two or
more of one digit, three or more of one character, at most 3 distinct
characters, or low entropy — the latter two only for `len(username) > 5`). -/
def level4Banned (lowered : List Char) : Bool :=
  let counts := charCounts lowered
  counts.any (fun p => 2 ≤ p.2 && p.1.isDigit) ||
  counts.any (fun p => 3 ≤ p.2) ||
  (counts.length ≤ 3 && 5 < lowered.length) ||
  (entropyBelowCutoff lowered && 5 < lowered.length)

/-- The pure part of `is_banned` (levels 1–4): everything the method checks
before its `t.me` request. -/
def staticBanned (username : String) : Bool :=
  let lo := lower username
  username.length ≤ 5 ||
  RESERVED_WORDS.any (fun w => w.data = lo) ||
  level2Banned lo ||
  bannedPatternsMatch lo ||
  level4Banned lo

/-! ### Network model

A request names the endpoint contacted (distinguishing the differently
configured `t.me` fetches of `check_fragment_api`); an event is a request or
a sleep of a given number of seconds. The world records, per endpoint, the
response the remote side gives; `none` models the request raising an
exception. Responses are modelled as stable per endpoint. -/

inductive Req
| getTme (u : String)
| getTmeCustom (u : String)
| headTme (u : String)
| getTmeMobile (u : String)
| getFragmentHome
| postSearchAuctions (u : String)
| postSearchRecipient (u : String)
| getFragmentUsername (u : String)
| clientGetChat (u : String)
deriving DecidableEq, Repr

inductive Ev
| req (r : Req)
| sleep (seconds : ℚ)
deriving DecidableEq, Repr

/-- A `t.me/<username>` response: HTTP status, body text, and the class
attributes of the parsed HTML tree's elements (what the
`//*[contains(@class, ...)]` xpath of `is_banned` inspects). -/
structure TmeResp where
  status : Nat
  content : String
  classes : List String
deriving DecidableEq, Repr

/-- The content regexes of `is_banned`'s network phase, expanded from their
alternations into literal phrases, matched against the lowercased body. -/
def bannedContentPhrases : List String := [
  "this account has been banned", "this account has been terminated",
  "this account has been suspended", "this account was banned",
  "this account was terminated", "this account was suspended",
  "banned for spam", "banned for scam", "banned for abuse", "banned for violating",
  "terminated for spam", "terminated for scam", "terminated for abuse",
  "terminated for violating",
  "account deleted", "account terminated", "account no longer available",
  "violating telegram terms of service", "violating telegram's terms of service",
  "this account is not accessible", "this account has been restricted",
  "permanently removed", "permanently suspended", "permanently banned",
  "account suspended", "account blocked", "account removed",
  "was banned by telegram", "was banned by the telegram team",
  "this username cannot be displayed", "this username can't be displayed",
  "this account no longer exists", "this account has been deleted",
  "this account is no longer available",
  "this username has been banned",
  "username is not available for use",
  "username cannot be used due to security reasons",
  "username has been restricted"]

/-- The `banned_indicators` class names of `is_banned`. -/
def bannedIndicatorClasses : List String :=
  ["tgme_page_status_text", "account_banned", "username_banned", "account_deleted",
   "account_restricted"]

/-- The `error_messages` of `is_banned`, matched lowercased. -/
def tmeErrorMessages : List String :=
  ["Sorry, this username is no longer available.",
   "Sorry, this username is invalid.",
   "Sorry, this username is taken by existing account.",
   "Sorry, too many attempts."]

/-- `is_banned`: banned cache first, then the static levels, then the
`t.me` fetch. State is the `_banned_cache` (a list with set semantics);
the result is `(answer, new cache, events)`. The `except Exception` path
(`tme = none`) returns `True` without touching the cache. -/
def isBanned (u : String) (tme : Option TmeResp) (cache : List String) :
    Bool × List String × List Ev :=
  if cache.contains u then (true, cache, [])
  else if staticBanned u then (true, u :: cache, [])
  else
    match tme with
    | none => (true, cache, [Ev.req (Req.getTme u)])
    | some r =>
      if r.status = 403 || r.status = 404 || r.status = 410 then
        (true, u :: cache, [Ev.req (Req.getTme u)])
      else if r.classes.any (fun cls =>
          bannedIndicatorClasses.any (fun ind => containsStr cls ind)) then
        (true, u :: cache, [Ev.req (Req.getTme u)])
      else if bannedContentPhrases.any (fun p =>
          containsSeq p.data (lower r.content)) then
        (true, u :: cache, [Ev.req (Req.getTme u)])
      else if tmeErrorMessages.any (fun m =>
          containsSeq (lower m) (lower r.content)) then
        (true, u :: cache, [Ev.req (Req.getTme u)])
      else (false, cache, [Ev.req (Req.getTme u)])

/-! ### check_fragment_api (username_checker.py) -/

/-- The `suspicious_patterns` list at the top of `check_fragment_api`: all
are plain substring regexes, searched over `username.lower()`. -/
def suspiciousMatch (lo : List Char) : Bool :=
  containsAny lo officialSoundingWords ||
  containsAny lo brandWords ||
  containsAny lo serviceWords ||
  containsAny lo financeWords ||
  containsAny lo adultWords ||
  containsAny lo scammerWords

/-- The `strict_patterns` of the `Unavailable` branch, searched (without
IGNORECASE) over `pattern_test = username.lower()`; the two-uppercase
pattern is kept as written even though a lowercased string cannot match
it. -/
def strictPatternsMatch (lo : List Char) : Bool :=
  adjPair (inClass "0o") (inClass "0o") lo ||
  adjPair (inClass "1il") (inClass "1il") lo ||
  adjPair (inClass "0o") (inClass "1il") lo ||
  adjPair (inClass "1il") (inClass "0o") lo ||
  -- r'.*[A-Z][A-Z].*'
  adjPair (fun c => 'A' ≤ c && c ≤ 'Z') (fun c => 'A' ≤ c && c ≤ 'Z') lo ||
  containsAny lo ["admin", "mod", "staff", "team", "help", "support", "service",
    "official", "bot"] ||
  -- r'.*[0-9][0-9]+$'
  (match lo.reverse with
   | a :: b :: _ => a.isDigit && b.isDigit
   | _ => false)

/-- The `banned_word` list of the custom-headers content check. -/
def specialContentWords : List String :=
  ["unavailable", "banned", "blocked", "removed", "deleted", "terminated",
   "restricted", "violation", "bot", "telegram"]

/-- The `banned_indicators` text list of the final-verification check
(matched against the lowercased first `t.me` body). -/
def finalBannedIndicators : List String :=
  ["account is not accessible", "username is not available",
   "username cannot be displayed", "was banned", "has been banned",
   "username banned", "violating", "violation", "terms of service",
   "this account", "for sale", "purchase this", "auction", "premium",
   "restricted"]

/-- The `unavailable_indicators` list, matched case-sensitively. -/
def unavailableIndicators : List String :=
  ["This username is used by a channel", "This username is used by a group",
   "This account is already taken", "This username is already taken",
   "Get Telegram"]

/-- The `concern_indicators` of the direct `fragment.com/username/...`
check (matched against the lowercased body; the source lists "auction"
twice). -/
def concernIndicators : List String :=
  ["not found", "not available", "auction", "tgFragment.showSimilar",
   "for sale", "buy now", "place bid", "auction", "current price",
   "reserved", "premium", "exclusive", "special", "unique", "rare",
   "owned by", "belongs to", "registered", "claimed", "taken",
   "error", "404", "not exist", "unavailable", "buy",
   "username is", "available on", "fragment auction"]

/-- The 6–7 character letter/digit ratio test of `check_fragment_api`. -/
def suspiciousRatio (u : String) : Bool :=
  (u.length = 6 || u.length = 7) &&
  (let letterCount := (u.data.filter Char.isAlpha).length
   let digitCount := (u.data.filter Char.isDigit).length
   (letterCount = 4 && digitCount = 2) ||
   (letterCount = 5 && digitCount = 1) ||
   (letterCount = 3 && digitCount = 3))

/-- A `fragment.com` landing-page response: the HTTP status and the result
of the `ajInit({...})` scrape (`none` when no script matched or the JSON
failed to parse). -/
structure FragHome where
  status : Nat
  apiUrl : Option String
deriving DecidableEq, Repr

/-- A `searchAuctions` POST response: HTTP status, whether the JSON was a
dict with a non-empty `html` field, and the text contents of the (up to
three) `tm-value` divs of that html fragment. -/
structure AuctionsResp where
  status : Nat
  htmlOk : Bool
  values : List String
deriving DecidableEq, Repr

/-- A mobile-headers `t.me` response: status, the final URL after
redirects, and the body. -/
structure MobileResp where
  status : Nat
  finalUrl : String
  content : String
deriving DecidableEq, Repr

/-- The world a `check_fragment_api` run interacts with; `none` fields model
the corresponding request raising. -/
structure FragWorld where
  tme : Option TmeResp
  home : Option FragHome
  auctions : Option AuctionsResp
  tmeCustom : Option String
  tmeHead : Option Nat
  fragUser : Option String
  tmeMobile : Option MobileResp
deriving DecidableEq, Repr

/-- Python `str.isdigit()` for the ASCII price strings: non-empty and all
digits. -/
def pyIsDigit (s : String) : Bool := !s.isEmpty && s.data.all Char.isDigit

/-- The `status == 'Unavailable'` verification chain of `check_fragment_api`
(source lines 431–635), entered after the auction triple parsed and the
price was not numeric. Every failed check `return None`s; exceptions
(`none` responses) also `return None` here. -/
def tmeVerify (u : String) (w : FragWorld) (cache : List String) :
    Option Bool × List String × List Ev :=
  match w.tme with
  | none => (none, cache, [Ev.req (Req.getTme u)])
  | some r =>
    if r.status = 403 || r.status = 404 || r.status = 410 then
      (none, cache, [Ev.req (Req.getTme u)])
    else if !(containsStr r.content "If you have Telegram, you can contact") then
      -- quadruple verification
      let (b3, c3, e3) := isBanned u w.tme cache
      if b3 then (none, c3, Ev.req (Req.getTme u) :: e3)
      else if strictPatternsMatch (lower u) then
        (none, u :: c3, Ev.req (Req.getTme u) :: e3)
      else
        match w.tmeCustom with
        | none => (none, c3, Ev.req (Req.getTme u) :: e3 ++ [Ev.req (Req.getTmeCustom u)])
        | some special =>
          if specialContentWords.any (fun wd => containsSeq wd.data (lower special)) then
            (none, u :: c3, Ev.req (Req.getTme u) :: e3 ++ [Ev.req (Req.getTmeCustom u)])
          else if finalBannedIndicators.any (fun t =>
              containsSeq t.data (lower r.content)) then
            (none, c3, Ev.req (Req.getTme u) :: e3 ++ [Ev.req (Req.getTmeCustom u)])
          else if unavailableIndicators.any (fun t => containsStr r.content t) then
            (none, c3, Ev.req (Req.getTme u) :: e3 ++ [Ev.req (Req.getTmeCustom u)])
          else
            match w.tmeHead with
            | none => (none, c3, Ev.req (Req.getTme u) :: e3 ++
                [Ev.req (Req.getTmeCustom u), Ev.req (Req.headTme u)])
            | some hs =>
              if hs ≠ 200 then (none, c3, Ev.req (Req.getTme u) :: e3 ++
                [Ev.req (Req.getTmeCustom u), Ev.req (Req.headTme u)])
              else
                let (b4, c4, e4) := isBanned u w.tme c3
                let pre := Ev.req (Req.getTme u) :: e3 ++
                  [Ev.req (Req.getTmeCustom u), Ev.req (Req.headTme u)] ++ e4
                if b4 then (none, c4, pre)
                else
                  match w.fragUser with
                  | none => (none, c4, pre ++ [Ev.req (Req.getFragmentUsername u)])
                  | some fc =>
                    -- `indicator in frag_content.lower()`: the indicators are
                    -- matched as written against the lowercased body
                    if concernIndicators.any (fun t =>
                        containsSeq t.data (lower fc)) then
                      (none, c4, pre ++ [Ev.req (Req.getFragmentUsername u)])
                    else if suspiciousRatio u then
                      (none, c4, pre ++ [Ev.req (Req.getFragmentUsername u)])
                    else
                      match w.tmeMobile with
                      | none => (none, c4, pre ++ [Ev.req (Req.getFragmentUsername u),
                          Ev.req (Req.getTmeMobile u)])
                      | some m =>
                        let trail := pre ++ [Ev.req (Req.getFragmentUsername u),
                          Ev.req (Req.getTmeMobile u)]
                        if m.status ≠ 200 then (none, c4, trail)
                        else if !(containsSeq (lower u) (lower m.finalUrl)) then
                          (none, c4, trail)
                        else if m.content.length < 5000 then (none, c4, trail)
                        else (some true, c4, trail)
    else (none, cache, [Ev.req (Req.getTme u)])

/-- One pass of the `for attempt in range(retries)` loop plus the recursion
to the next attempt; `fuel` is the number of attempts left and `attempt` the
Python loop index (used in the `base_delay * (attempt + 1)` sleeps,
`base_delay = 1`). -/
def fragmentAttempts (u : String) (w : FragWorld) (cache : List String) :
    Nat → Nat → Option Bool × List String × List Ev
| 0, _ => (none, cache, [])
| fuel + 1, attempt =>
    let next := fun (pre : List Ev) =>
      let (r, c, evs) := fragmentAttempts u w cache fuel (attempt + 1)
      (r, c, pre ++ evs)
    match w.home with
    | none =>
      -- exception during the fragment.com GET
      next [Ev.req Req.getFragmentHome, Ev.sleep ((attempt : ℚ) + 1)]
    | some h =>
      if h.status ≠ 200 then
        next [Ev.req Req.getFragmentHome, Ev.sleep ((attempt : ℚ) + 1)]
      else
        match h.apiUrl with
        | none => next [Ev.req Req.getFragmentHome, Ev.sleep ((attempt : ℚ) + 1)]
        | some _ =>
          match w.auctions with
          | none =>
            -- exception during the searchAuctions POST
            next [Ev.req Req.getFragmentHome, Ev.req (Req.postSearchAuctions u),
              Ev.sleep ((attempt : ℚ) + 1)]
          | some a =>
            let pre := [Ev.req Req.getFragmentHome, Ev.req (Req.postSearchAuctions u)]
            if a.status = 429 then next (pre ++ [Ev.sleep ((attempt : ℚ) + 1)])
            else if !a.htmlOk then next pre -- this `continue` has no sleep
            else if (a.values.take 3).length < 3 then (none, cache, pre)
            else
              let usernameTag := a.values.getD 0 ""
              let status := a.values.getD 2 ""
              let price := a.values.getD 1 ""
              if usernameTag.drop 1 ≠ u then (none, cache, pre)
              else
                let (b2, c2, e2) := isBanned u w.tme cache
                if b2 then (none, c2, pre ++ e2)
                else if pyIsDigit price then (none, c2, pre ++ e2)
                else if status = "Unavailable" then
                  let (res, c3, e3) := tmeVerify u w c2
                  (res, c3, pre ++ e2 ++ e3)
                else (none, c2, pre ++ e2)

/-- `check_fragment_api` (username_checker.py): the entry `is_banned` guard,
the `suspicious_patterns` guard, then the retry loop (default `retries=3`). -/
def checkFragmentApi (u : String) (w : FragWorld) (cache : List String)
    (retries : Nat) : Option Bool × List String × List Ev :=
  let (b, c1, e1) := isBanned u w.tme cache
  if b then (none, c1, e1)
  else if suspiciousMatch (lower u) then (none, u :: c1, e1)
  else
    let (r, c2, e2) := fragmentAttempts u w c1 retries 0
    (r, c2, e1 ++ e2)

/-! ### attached_assets/main.py — the synchronous TelegramUsernameChecker

`get_telegram_web_user` evaluates `text in html.fromstring(response.content)`.
`html.fromstring` yields an lxml element; lxml's `_Element.__contains__`
returns `True` only for an argument that is itself an element and a direct
child of the receiver, and returns `False` for any non-element argument such
as a `str`. The parse result is modelled as a tree (`LxmlElement`), Python
values crossing the `in` operator as `PyVal`, and identity of child elements
is approximated by structural equality (which can only make membership
larger, so never hides a `True`). -/

/-- Parse trees in first-child/next-sibling form, mirroring libxml2's node
representation: an element holds its text, its first child and its next
sibling, with `leaf` standing for a null pointer. -/
inductive LxmlNode
| leaf
| elem (text : String) (child : LxmlNode) (sibling : LxmlNode)
deriving DecidableEq, Repr

/-- The concatenated text of a subtree, used to state what a page body says
(lxml `text_content()`). -/
def LxmlNode.textContent : LxmlNode → String
| .leaf => ""
| .elem t c s => t ++ c.textContent ++ s.textContent

/-- The chain of a node and its following siblings. -/
def LxmlNode.siblingChain : LxmlNode → List LxmlNode
| .leaf => []
| .elem t c s => .elem t c s :: s.siblingChain

/-- The direct children of an element: its first child's sibling chain. -/
def LxmlNode.children : LxmlNode → List LxmlNode
| .leaf => []
| .elem _ c _ => c.siblingChain

inductive PyVal
| pyStr (s : String)
| pyElem (e : LxmlNode)
deriving DecidableEq, Repr

/-- lxml `_Element.__contains__`: `True` exactly for a direct child element;
a string is never an element, so it is never contained (identity of child
elements is approximated by structural equality, which can only enlarge
membership). -/
def lxmlContains (e : LxmlNode) (v : PyVal) : Bool :=
  match v with
  | .pyElem c => e.children.contains c
  | .pyStr _ => false

/-- The contact phrase `get_telegram_web_user` builds for a username. -/
def contactText (u : String) : String := "You can contact @" ++ u ++ " right away."

/-- `get_telegram_web_user` (main.py lines 74–77): fetch the profile page and
evaluate `text in html.fromstring(response.content)`. `page` is the parsed
response. -/
def getTelegramWebUser (u : String) (page : LxmlNode) : Bool :=
  lxmlContains page (PyVal.pyStr (contactText u))

/-- Constants of main.py. -/
def PREMIUM_USER : String := "This account is already subscribed to Telegram Premium."

def CHANNEL : String := "Please enter a username assigned to a user."

def NOT_FOUND : String := "No Telegram users found."

/-- The world of one main.py `check_fragment_api` run: the `ajInit` scrape
result, the auctions response shape, the `searchPremiumGiftRecipient` error
field (`none` when the JSON has no `error` key), and the parsed profile
page used by `get_telegram_web_user`. -/
structure MainWorld where
  apiUrl : Option String
  auctionsIsDict : Bool
  auctionsHtmlOk : Bool
  values : List String
  userError : Option String
  profilePage : LxmlNode
deriving DecidableEq, Repr

/-- The exit points of main.py `check_fragment_api`, named after the log
message each return site emits; only `maybeFreeOrReserved` returns the
truthy `True`, every other exit returns `None`. -/
inductive MainOutcome
| countExhausted
| apiUrlNotFound
| notEnoughData
| usernameMismatch
| forSale (price : String)
| takenUser
| takenPremium
| takenChannel
| maybeFreeOrReserved
| privacyProtected
| badRequest
| unknownApi
deriving DecidableEq, Repr

/-- `check_fragment_api` (main.py lines 79–138), recursing on the retry
counter (`count`, default 6) exactly where the source calls itself. -/
def mainCheckFragment (u : String) (w : MainWorld) : Nat → MainOutcome × List Ev
| 0 => (.countExhausted, [])
| count + 1 =>
    match w.apiUrl with
    | none => (.apiUrlNotFound, [Ev.req Req.getFragmentHome])
    | some _ =>
      let pre := [Ev.req Req.getFragmentHome, Ev.req (Req.postSearchAuctions u)]
      if !w.auctionsIsDict then
        let (r, evs) := mainCheckFragment u w count
        (r, pre ++ [Ev.sleep 10] ++ evs)
      else if !w.auctionsHtmlOk then
        let (r, evs) := mainCheckFragment u w count
        (r, pre ++ [Ev.sleep 6] ++ evs)
      else if (w.values.take 3).length < 3 then (.notEnoughData, pre)
      else
        let usernameTag := w.values.getD 0 ""
        let status := w.values.getD 2 ""
        let price := w.values.getD 1 ""
        if usernameTag.drop 1 ≠ u then (.usernameMismatch, pre)
        else if pyIsDigit price then (.forSale price, pre)
        else
          -- user_info = self.get_user(username, api_url)
          let post := pre ++ [Ev.req (Req.postSearchRecipient u)]
          let userInfoFalsy := match w.userError with
            | none => true
            | some s => s.isEmpty
          if userInfoFalsy then (.takenUser, post)
          else
            let info := w.userError.getD ""
            if containsStr info PREMIUM_USER then (.takenPremium, post)
            else if containsStr info CHANNEL then (.takenChannel, post)
            else if info = NOT_FOUND && status = "Unavailable" then
              let entity := getTelegramWebUser u w.profilePage
              if !entity then (.maybeFreeOrReserved, post ++ [Ev.req (Req.getTme u)])
              else (.privacyProtected, post ++ [Ev.req (Req.getTme u)])
            else if containsStr info "Bad request" then (.badRequest, post)
            else (.unknownApi, post)

/-! ### username_checker_pyrogram.py — UsernameChecker

One `check_username` call is modelled as happening at wall-clock time `now`
(the timestamp stored on a cache write); the client's responses arrive as a
list consumed one `get_chat` call at a time, so the FloodWait retry
recursion is structural; an exhausted response list behaves as the generic
`except Exception` branch (the client failing). Sleeps are recorded as
events and do not advance the model clock. -/

/-- `_is_valid_username`: Telegram format rules plus the reserved-word
check. `\w` of the source regex is taken ASCII (letters, digits,
underscore). -/
def isValidUsername (u : String) : Bool :=
  (5 ≤ u.length && u.length ≤ 32) &&
  (match u.data with
   | c :: rest => c.isAlpha && rest.all (fun d => d.isAlphanum || d = '_')
   | [] => false) &&
  !(containsStr u "__") &&
  !(match u.data.getLast? with
    | some c => c = '_'
    | none => false) &&
  !(RESERVED_WORDS.any (fun w => w.data = lower u))

/-- The result dict of `check_username`; `rtype` is the `"type"` field. -/
structure PyResult where
  username : String
  available : Bool
  valid : Bool
  rtype : String
  message : String
deriving DecidableEq, Repr

/-- One `client.get_chat` outcome: a chat of some type, one of the username
exceptions, a FloodWait of `n` seconds, a BadRequest with message `m`, or a
generic exception with message `m`. -/
inductive ChatResp
| ok (chatType : String) (isPremium : Bool)
| notOccupied
| invalid
| occupied
| floodWait (n : ℚ)
| badRequest (m : String)
| exc (m : String)
deriving DecidableEq, Repr

/-- Checker state: `last_check_time`, `min_delay`, the result cache
(`username ↦ (cache_time, result)`, last write wins), and the mode flags. -/
structure PyState where
  lastCheckTime : ℚ
  minDelay : ℚ
  cache : List (String × ℚ × PyResult)
  rateLimitHit : Bool
  limitedMode : Bool
  hasClient : Bool
deriving DecidableEq, Repr

/-- `cache_timeout` (15 minutes). -/
def cacheTimeout : ℚ := 900

/-- Dict lookup in the result cache. -/
def cacheLookup (cache : List (String × ℚ × PyResult)) (u : String) :
    Option (ℚ × PyResult) :=
  (cache.find? (fun p => p.1 = u)).map (fun p => p.2)

/-- `_is_cached`: in the cache and not expired. -/
def isCached (s : PyState) (u : String) (now : ℚ) : Bool × Option PyResult :=
  match cacheLookup s.cache u with
  | some (cacheTime, result) =>
    if now - cacheTime < cacheTimeout then (true, some result) else (false, none)
  | none => (false, none)

/-- `_cache_result`: store `(now, result)` under `u`, overwriting. -/
def cacheResult (s : PyState) (u : String) (result : PyResult) (now : ℚ) : PyState :=
  { s with cache := (u, now, result) ::
      s.cache.filter (fun p => p.1 ≠ u) }

/-- `_enforce_delay`: sleep whatever remains of `min_delay` since the last
check, then record the current time. The sleep is `time.sleep` in the
source — it blocks the whole event loop, not just the calling task; here
only its duration is recorded. With the model clock fixed at `now`, the
recorded `last_check_time` after a sleep is `now + delay_needed`. -/
def enforceDelay (s : PyState) (now : ℚ) : PyState × List Ev :=
  let timeSinceLastCheck := now - s.lastCheckTime
  if timeSinceLastCheck < s.minDelay then
    let delayNeeded := s.minDelay - timeSinceLastCheck
    ({ s with lastCheckTime := now + delayNeeded }, [Ev.sleep delayNeeded])
  else ({ s with lastCheckTime := now }, [])

/-- `_handle_flood_wait`: raise `min_delay` to at least a fifth of the wait,
sleep the signalled seconds plus half a second; the transient
`rate_limit_hit` flag is set and cleared within the call. -/
def handleFloodWait (s : PyState) (n : ℚ) : PyState × List Ev :=
  ({ s with minDelay := max s.minDelay (n / 5), rateLimitHit := false },
   [Ev.sleep (n + 1/2)])

/-- The `"invalid_format"` result dict. -/
def invalidFormatResult (u : String) : PyResult :=
  ⟨u, false, false, "invalid_format", "Invalid username format"⟩

/-- The limited-mode result dict. -/
def limitedModeResult (u : String) : PyResult :=
  ⟨u, false, true, "unknown", "Bot in limited mode, unable to check with Telegram API"⟩

/-- The chat-type classification of the `get_chat` success branch. -/
def chatTypeResult (u : String) (chatType : String) (isPremium : Bool) : PyResult :=
  let rtype :=
    if chatType = "private" then (if isPremium then "premium_user" else "user")
    else if chatType = "bot" then "bot"
    else if chatType = "channel" then "channel"
    else if chatType = "group" || chatType = "supergroup" then "group"
    else "unknown"
  ⟨u, false, true, rtype, "Username taken by " ++ rtype⟩

/-- The part of `check_username` before the `get_chat` call (format check,
cache check, limited mode, rate-limit delay, client presence), factored out
so that the FloodWait retry recursion below is structural on the response
list: `done` carries an early return, `proceed` the post-delay state and
events with which the `get_chat` interaction starts. -/
inductive PreOutcome
| done (r : PyResult) (s2 : PyState) (evs : List Ev)
| proceed (s1 : PyState) (evs : List Ev)
deriving DecidableEq, Repr

/-- Lines 163–205 of `check_username`: everything up to the `try`. -/
def checkUsernamePre (u : String) (s : PyState) (now : ℚ) : PreOutcome :=
  if !isValidUsername u then .done (invalidFormatResult u) s []
  else
    match (isCached s u now).2 with
    | some cached => .done cached s []
    | none =>
      if s.limitedMode then
        let result := limitedModeResult u
        .done result (cacheResult s u result now) []
      else
        let (s1, e1) := enforceDelay s now
        if !s.hasClient then
          let result : PyResult :=
            ⟨u, false, true, "unknown", "No client available for checking"⟩
          .done result (cacheResult s1 u result now) e1
        else .proceed s1 e1

/-- `check_username` (username_checker_pyrogram.py lines 153–268): the
pre-checks above, then the `get_chat` call with its exception ladder;
FloodWait sleeps and retries the same check (the recursion consumes the
next scripted response). Every path past the cache check caches its
result. -/
def checkUsernamePy (u : String) (s : PyState) (now : ℚ) :
    List ChatResp → PyResult × PyState × List Ev
| [] =>
    (match checkUsernamePre u s now with
     | .done r s2 evs => (r, s2, evs)
     | .proceed s1 e1 =>
       -- client gave no response: the generic `except Exception` branch
       let base : PyResult := ⟨u, false, true, "unknown", ""⟩
       let result := { base with
         valid := false, rtype := "error",
         message := "Error: client unavailable" }
       (result, cacheResult s1 u result now, e1 ++ [Ev.req (Req.clientGetChat u)]))
| resp :: rest =>
    (match checkUsernamePre u s now with
     | .done r s2 evs => (r, s2, evs)
     | .proceed s1 e1 =>
       let base : PyResult := ⟨u, false, true, "unknown", ""⟩
       let evs := e1 ++ [Ev.req (Req.clientGetChat u)]
       match resp with
       | .ok chatType isPremium =>
         let result := chatTypeResult u chatType isPremium
         (result, cacheResult s1 u result now, evs)
       | .notOccupied =>
         let result := { base with
           available := true, rtype := "available",
           message := "Username is available" }
         (result, cacheResult s1 u result now, evs)
       | .invalid =>
         let result := { base with
           valid := false, rtype := "banned_or_reserved",
           message := "Username is invalid, banned, or reserved" }
         (result, cacheResult s1 u result now, evs)
       | .occupied =>
         let result := { base with
           rtype := "occupied",
           message := "Username is taken" }
         (result, cacheResult s1 u result now, evs)
       | .floodWait n =>
         let (s2, e2) := handleFloodWait s1 n
         let (r, s3, e3) := checkUsernamePy u s2 now rest
         (r, s3, evs ++ e2 ++ e3)
       | .badRequest m =>
         let result :=
           if containsSeq "username is invalid".data (lower m) then
             { base with
               valid := false, rtype := "invalid",
               message := "Username is invalid" }
           else { base with
             valid := false, rtype := "error",
             message := "Error: " ++ m }
         (result, cacheResult s1 u result now, evs)
       | .exc m =>
         let result := { base with
           valid := false, rtype := "error",
           message := "Error: " ++ m }
         (result, cacheResult s1 u result now, evs))

/-! ### Rate-limiter admission runs (for the sliding-window property)

Successive `check_username` calls run `_enforce_delay` sequentially (its
`time.sleep` blocks the whole event loop, so no two runs interleave); a run
is the fold of `enforceDelay` over the call times, and the admission times
are the recorded `last_check_time` values. -/

def limiterAdmissions (s : PyState) : List ℚ → List ℚ
| [] => []
| t :: ts =>
    (enforceDelay s t).1.lastCheckTime ::
      limiterAdmissions (enforceDelay s t).1 ts

/-! ## Theorems -/

theorem hamming_self (l : List Char) : hamming l l = 0 := by
  induction l with
  | nil => rfl
  | cons a t ih => simp [hamming, ih]

theorem mapFinRange_ne_nil {n : ℕ} (f : Fin (n + 1) → String) :
    (List.finRange (n + 1)).map f ≠ [] := by
  apply List.ne_nil_of_length_pos
  simp

theorem swapAdj_eq_or_hamming_two (l : List Char) (p : Nat) :
    UsernameGenerator.swapAdj l p = l ∨ hamming l (UsernameGenerator.swapAdj l p) = 2 := by
  induction l generalizing p with
  | nil => left; rfl
  | cons a t ih =>
    cases p with
    | zero =>
      cases t with
      | nil => left; rfl
      | cons b r =>
        by_cases hab : a = b
        · left; simp [UsernameGenerator.swapAdj, hab]
        · right
          have hba : ¬ b = a := fun h => hab h.symm
          simp [UsernameGenerator.swapAdj, hamming, hab, hba, hamming_self]
    | succ q =>
      rcases ih q with h | h
      · left; simp [UsernameGenerator.swapAdj, h]
      · right; simp [UsernameGenerator.swapAdj, hamming, h]


/-! ### C6 — Mutation Generator rules -/

/-- C6, counterexample: on the base name "aa" (length 2), `switch` returns
"aa" itself — swapping two equal adjacent characters changes nothing — so a
returned string of a base name of length ≥ 2 has Hamming distance 0, not 2,
from the base name, contrary to the claim. -/
theorem C6_switch_counterexample :
    "aa" ∈ UsernameGenerator.switch "aa" (fun _ => 0) ∧
    2 ≤ "aa".length ∧ hamming "aa".data "aa".data ≠ 2 := by decide

/-- C6 (amended): for every base name of length ≥ 1 every generator rule
returns a non-empty list (tamhur in its "BOTH" mode, as the bot calls it),
and every string returned by `switch` either equals the base name (always
when its length is < 2, and also when the two transposed characters are
equal) or differs from it in exactly two positions. -/
theorem C6_generator_nonempty_and_switch_hamming (b : String)
    (gp : Fin 30 → Nat) (gr gt : Fin 30 → Char) (sp kp : Fin 30 → Nat)
    (el : Fin 15 → Char) (es : Fin 15 → Bool) (mp : Fin 15 → Nat)
    (ml : Fin 15 → Char) (hb : 1 ≤ b.length) :
    UsernameGenerator.ganhur b gp gr gt ≠ [] ∧
    UsernameGenerator.canon b ≠ [] ∧
    UsernameGenerator.sop b ≠ [] ∧
    UsernameGenerator.scanon b ≠ [] ∧
    UsernameGenerator.switch b sp ≠ [] ∧
    UsernameGenerator.kurkuf b kp ≠ [] ∧
    UsernameGenerator.tamhur b "BOTH" el es mp ml ≠ [] ∧
    ∀ s ∈ UsernameGenerator.switch b sp, s = b ∨ hamming b.data s.data = 2 := by
  refine ⟨mapFinRange_ne_nil _, mapFinRange_ne_nil _, ?_, mapFinRange_ne_nil _,
    mapFinRange_ne_nil _, mapFinRange_ne_nil _, ?_, ?_⟩
  · apply List.ne_nil_of_length_pos
    simpa [UsernameGenerator.sop] using hb
  · apply List.ne_nil_of_length_pos
    simp [UsernameGenerator.tamhur]
  · intro s hs
    rcases List.mem_map.mp hs with ⟨i, _, rfl⟩
    by_cases hlen : 1 < b.length
    · simp only [hlen, if_pos]
      rcases swapAdj_eq_or_hamming_two b.data (sp i) with h | h
      · left
        cases b
        simpa using congrArg String.mk h
      · right
        simpa using h
    · simp [hlen]

/-- C6 witness: the amended statement at the base name "jaemin" with all
draws fixed to position 0. -/
theorem C6_generator_witness :
    UsernameGenerator.ganhur "jaemin" (fun _ => 0) (fun _ => 'a') (fun _ => 'b') ≠ [] ∧
    UsernameGenerator.canon "jaemin" ≠ [] ∧
    UsernameGenerator.sop "jaemin" ≠ [] ∧
    UsernameGenerator.scanon "jaemin" ≠ [] ∧
    UsernameGenerator.switch "jaemin" (fun _ => 0) ≠ [] ∧
    UsernameGenerator.kurkuf "jaemin" (fun _ => 0) ≠ [] ∧
    UsernameGenerator.tamhur "jaemin" "BOTH" (fun _ => 'c') (fun _ => true)
      (fun _ => 1) (fun _ => 'd') ≠ [] ∧
    ∀ s ∈ UsernameGenerator.switch "jaemin" (fun _ => 0),
      s = "jaemin" ∨ hamming "jaemin".data s.data = 2 :=
  C6_generator_nonempty_and_switch_hamming "jaemin" (fun _ => 0) (fun _ => 'a')
    (fun _ => 'b') (fun _ => 0) (fun _ => 0) (fun _ => 'c') (fun _ => true)
    (fun _ => 1) (fun _ => 'd') (by decide)

/-! ### C5 — Generation Session Store and candidate filtering -/

theorem storeLookup_storeSet (st : List (String × List (String × ℚ)))
    (b : String) (v : List (String × ℚ)) :
    storeLookup (storeSet st b v) b = some v := by
  induction st with
  | nil => simp [storeSet, storeLookup]
  | cons p t ih =>
    by_cases h : p.1 = b
    · simp [storeSet, storeLookup, h]
    · simpa [storeSet, storeLookup, List.find?, h] using ih

/-- C5, counterexample: after `add_username "base" "names"` the store
reports `is_generated "base" "names" = True`, yet a fresh generation request
whose generator output is ["names"] still passes "names" to the batch
checking loop — `check_generated_usernames` never consults the store. -/
theorem C5_store_not_consulted_counterexample :
    (UsernameStore.init.addUsername "base" "names" 0).isGenerated "base" "names" = true ∧
    "names" ∈ checkGeneratedCandidates ["names"] := by decide

/-- C5 (amended): the Generation Session Store does record candidates —
after `add_username b c` a lookup `is_generated b c` returns True — but the
generation flow never consults it: the set `check_generated_usernames`
passes to the batch checking loop is the deduplicated, 30-truncated
generator output, independent of the store, so a recorded candidate with up
to 29 distinct fellow candidates is passed again rather than excluded. -/
theorem C5_store_records_but_no_filtering (st : UsernameStore) (b c : String)
    (t : ℚ) (g : List String) (hc : c ∈ g) (hlen : g.dedup.length ≤ 30) :
    (st.addUsername b c t).isGenerated b c = true ∧
    c ∈ checkGeneratedCandidates g := by
  constructor
  · unfold UsernameStore.addUsername UsernameStore.isGenerated
    simp only [storeLookup_storeSet]
    by_cases h : (storeLookup st.store b).getD [] |>.contains (c, t)
    · simp only [h, if_pos]
      exact List.any_eq_true.mpr ⟨(c, t), by simpa using h, by simp⟩
    · simp only [h, if_neg, Bool.false_eq_true, not_false_iff]
      exact List.any_eq_true.mpr ⟨(c, t), by simp, by simp⟩
  · unfold checkGeneratedCandidates
    rw [List.take_of_length_le hlen]
    exact List.mem_dedup.mpr hc

/-- C5 witness: the amended statement at a concrete store, base name and
generator output. -/
theorem C5_store_records_witness :
    (UsernameStore.init.addUsername "rajufan" "rajufans" 5).isGenerated
      "rajufan" "rajufans" = true ∧
    "rajufans" ∈ checkGeneratedCandidates ["rajufans", "rajufan1"] :=
  C5_store_records_but_no_filtering UsernameStore.init "rajufan" "rajufans" 5
    ["rajufans", "rajufan1"] (by decide) (by decide)


/-! ### C2 — static screening rejects before any network request -/

/-- C2: a candidate rejected by the static screening rules (is_banned's
levels 1–4, `staticBanned`) makes `check_fragment_api` return the rejected
outcome `None` with an empty event trace — no network request and no sleep —
whatever the world, the banned-cache contents and the retry budget. -/
theorem C2_screened_rejected_without_network (u : String) (w : FragWorld)
    (cache : List String) (retries : Nat) (h : staticBanned u = true) :
    (checkFragmentApi u w cache retries).1 = none ∧
    (checkFragmentApi u w cache retries).2.2 = [] := by
  unfold checkFragmentApi isBanned
  by_cases hc : u ∈ cache <;> simp [hc, h]

/-- C2 witness: the reserved five-letter candidate "admin" is rejected with
zero network calls (length ≤ 5 and an exact RESERVED_WORDS hit both fire). -/
theorem C2_screened_admin_witness :
    (checkFragmentApi "admin" ⟨none, none, none, none, none, none, none⟩ [] 3).1 = none ∧
    (checkFragmentApi "admin" ⟨none, none, none, none, none, none, none⟩ [] 3).2.2 = [] :=
  C2_screened_rejected_without_network "admin" _ [] 3 (by decide)

/-! ### C3 — a numeric price terminates the pipeline before the owner lookup -/

/-- C3: when the marketplace auction lookup parses to a triple whose price
is a non-empty decimal-digit string, main.py `check_fragment_api` exits at
the for-sale branch carrying that price, its trace being exactly the landing
page GET and the searchAuctions POST — in particular the
`searchPremiumGiftRecipient` owner lookup is never issued. -/
theorem C3_forsale_skips_owner_lookup (u : String) (w : MainWorld) (n : Nat)
    (a : String) (hapi : w.apiUrl = some a) (hdict : w.auctionsIsDict = true)
    (hhtml : w.auctionsHtmlOk = true) (hlen : 3 ≤ w.values.length)
    (htag : (w.values.getD 0 "").drop 1 = u)
    (hprice : pyIsDigit (w.values.getD 1 "") = true) :
    mainCheckFragment u w (n + 1) =
      (MainOutcome.forSale (w.values.getD 1 ""),
       [Ev.req Req.getFragmentHome, Ev.req (Req.postSearchAuctions u)]) ∧
    Ev.req (Req.postSearchRecipient u) ∉ (mainCheckFragment u w (n + 1)).2 := by
  have hlt : ¬ (w.values.length < 3) := by omega
  have htag2 : (w.values[0]?.getD "").drop 1 = u := by
    simpa [List.getD] using htag
  have hprice2 : pyIsDigit (w.values[1]?.getD "") = true := by
    simpa [List.getD] using hprice
  have heq : mainCheckFragment u w (n + 1) =
      (MainOutcome.forSale (w.values.getD 1 ""),
       [Ev.req Req.getFragmentHome, Ev.req (Req.postSearchAuctions u)]) := by
    simp [mainCheckFragment, hapi, hdict, hhtml, hlt, htag2, hprice2, List.getD]
  refine ⟨heq, ?_⟩
  rw [heq]
  simp

/-- C3 witness: concrete scenario C — status "Unavailable" with price
"1000" yields ForSale("1000") and no owner-lookup request. -/
theorem C3_forsale_witness :
    mainCheckFragment "jaemin"
      ⟨some "/api?hash=x", true, true, ["@jaemin", "1000", "Unavailable"],
       some "No Telegram users found.", LxmlNode.leaf⟩ 6 =
      (MainOutcome.forSale "1000",
       [Ev.req Req.getFragmentHome, Ev.req (Req.postSearchAuctions "jaemin")]) ∧
    Ev.req (Req.postSearchRecipient "jaemin") ∉
      (mainCheckFragment "jaemin"
        ⟨some "/api?hash=x", true, true, ["@jaemin", "1000", "Unavailable"],
         some "No Telegram users found.", LxmlNode.leaf⟩ 6).2 :=
  C3_forsale_skips_owner_lookup "jaemin" _ 5 "/api?hash=x" rfl rfl rfl
    (by decide) (by decide) (by decide)


/-! ### C1 — the web contact check of main.py -/

/-- Scenario-D world with a profile page that does not contain the contact
phrase. -/
def c1WorldAbsent : MainWorld :=
  ⟨some "/api?hash=x", true, true, ["@jaemin", "N/A", "Unavailable"],
   some NOT_FOUND, LxmlNode.elem "profile page of jaemin" .leaf .leaf⟩

/-- Scenario-D world whose profile page body does contain the contact
phrase "You can contact @jaemin right away.". -/
def c1WorldPresent : MainWorld :=
  ⟨some "/api?hash=x", true, true, ["@jaemin", "N/A", "Unavailable"],
   some NOT_FOUND, LxmlNode.elem (contactText "jaemin") .leaf .leaf⟩

/-- C1: with marketplace status "Unavailable" and owner lookup answering
"No Telegram users found.", the pipeline classifies the candidate Available
when the contact phrase is absent (as the claim says) — but it also does so
when the phrase is present in the page body, because
`get_telegram_web_user` evaluates `text in html.fromstring(...)`, and lxml
element containment is always False for a string, so the privacy-protected
branch is unreachable. -/
theorem C1_contact_phrase_never_detected :
    (mainCheckFragment "jaemin" c1WorldAbsent 6).1 = MainOutcome.maybeFreeOrReserved ∧
    containsStr c1WorldPresent.profilePage.textContent (contactText "jaemin") = true ∧
    getTelegramWebUser "jaemin" c1WorldPresent.profilePage = false ∧
    (mainCheckFragment "jaemin" c1WorldPresent 6).1 = MainOutcome.maybeFreeOrReserved := by
  decide


/-! ### C7 — effects of the screening stage -/

/-- C7, counterexample: screening "admin" does not leave the checker state
unchanged — `is_banned` records the rejection in `_banned_cache`, so the
cache goes from empty to ["admin"]. -/
theorem C7_screening_mutates_state_counterexample :
    (isBanned "admin" none []).2.1 = ["admin"] ∧ ("admin" :: ([] : List String)) ≠ [] := by
  decide

/-- C7 (amended): the static screening performs no network I/O on a string
it rejects, and repeating `is_banned` in the same world returns the same
classification; but it is not side-effect-free — rejections are recorded in
the banned cache — and for strings that pass every static check the method
itself goes on to the profile-page request (the pure validator
`_is_valid_username` is a function of the string alone by construction). -/
theorem C7_screening_no_network_and_idempotent (u : String) (w : Option TmeResp)
    (c : List String) :
    (staticBanned u = true → (isBanned u w c).2.2 = []) ∧
    (isBanned u w (isBanned u w c).2.1).1 = (isBanned u w c).1 := by
  by_cases hc : u ∈ c
  · exact ⟨fun _ => by simp [isBanned, hc], by simp [isBanned, hc]⟩
  · by_cases hs : staticBanned u
    · exact ⟨fun _ => by simp [isBanned, hc, hs], by simp [isBanned, hc, hs]⟩
    · refine ⟨fun h => absurd h (by simp [hs]), ?_⟩
      cases w with
      | none => simp [isBanned, hc, hs]
      | some r =>
        by_cases hA : (r.status = 403 || r.status = 404 || r.status = 410) = true
        · simp [isBanned, hc, hs, hA]
        · by_cases hB : (r.classes.any (fun cls =>
              bannedIndicatorClasses.any (fun ind => containsStr cls ind))) = true
          · simp [isBanned, hc, hs, hA, hB]
          · by_cases hC : (bannedContentPhrases.any (fun p =>
                containsSeq p.data (lower r.content))) = true
            · simp [isBanned, hc, hs, hA, hB, hC]
            · by_cases hD : (tmeErrorMessages.any (fun m =>
                  containsSeq (lower m) (lower r.content))) = true
              · simp [isBanned, hc, hs, hA, hB, hC, hD]
              · simp [isBanned, hc, hs, hA, hB, hC, hD]

/-! ### C10 — the banned cache -/

set_option maxRecDepth 8192 in
/-- C10, counterexample: in a world where the `t.me` fetch raises, the
candidate "a_b-c.d" (which passes every static check) gets `is_banned =
True` yet is NOT inserted into the banned cache, and the repeated call
performs network I/O again instead of returning from the cache. -/
theorem C10_exception_true_not_cached_counterexample :
    (isBanned "a_b-c.d" none []).1 = true ∧
    (isBanned "a_b-c.d" none []).2.1 = [] ∧
    (isBanned "a_b-c.d" none ((isBanned "a_b-c.d" none []).2.1)).2.2 ≠ [] := by
  decide

/-- C10 (amended): the banned cache only ever grows and a cached username
short-circuits `is_banned` to True with no request at all; every True
produced while the `t.me` fetch did answer (any static or content
detection) does insert the username; only the exception path returns True
without caching, so a True result does not always populate the cache. -/
theorem C10_banned_cache_monotone_and_short_circuit (u : String)
    (w : Option TmeResp) (c : List String) :
    (∀ x ∈ c, x ∈ (isBanned u w c).2.1) ∧
    (u ∈ c → isBanned u w c = (true, c, [])) ∧
    ((isBanned u w c).1 = true → ∀ r, w = some r → u ∈ (isBanned u w c).2.1) := by
  by_cases hc : u ∈ c
  · refine ⟨fun x hx => ?_, fun _ => by simp [isBanned, hc], fun _ r hr => ?_⟩
    · simpa [isBanned, hc] using hx
    · simp [isBanned, hc]
  · by_cases hs : staticBanned u
    · refine ⟨fun x hx => ?_, fun h => absurd h hc, fun _ r hr => ?_⟩
      · simp [isBanned, hc, hs, hx]
      · simp [isBanned, hc, hs]
    · refine ⟨fun x hx => ?_, fun h => absurd h hc, fun ht r hr => ?_⟩
      · cases w with
        | none => simpa [isBanned, hc, hs] using hx
        | some r =>
          simp only [isBanned, hc, hs]
          split_ifs <;> simp [hx]
      · subst hr
        simp only [isBanned, hc, hs] at ht ⊢
        split_ifs at ht ⊢ with h1 h2 h3 h4 <;> simp_all


/-! ### C4 — result-cache idempotence of the pyrogram checker -/

theorem cacheLookup_cacheResult (s : PyState) (u : String) (r : PyResult) (now : ℚ) :
    cacheLookup (cacheResult s u r now).cache u = some (now, r) := by
  simp [cacheResult, cacheLookup]

theorem enforceDelay_cache (s : PyState) (t : ℚ) :
    (enforceDelay s t).1.cache = s.cache := by
  unfold enforceDelay
  dsimp only
  split_ifs <;> rfl

theorem handleFloodWait_cache (s : PyState) (n : ℚ) :
    (handleFloodWait s n).1.cache = s.cache := rfl

theorem isCached_congr (s1 s2 : PyState) (u : String) (now : ℚ)
    (h : s1.cache = s2.cache) : isCached s1 u now = isCached s2 u now := by
  unfold isCached cacheLookup
  rw [h]

/-- Every `check_username` call on a valid, not-currently-cached username
stores its result under the call time: `_cache_result` runs on every path
past the cache check, including through FloodWait retries. -/
theorem checkUsernamePy_writes_cache (u : String) (rs : List ChatResp) :
    ∀ (s : PyState) (now : ℚ), isValidUsername u = true →
    (isCached s u now).2 = none →
    cacheLookup (checkUsernamePy u s now rs).2.1.cache u =
      some (now, (checkUsernamePy u s now rs).1) := by
  induction rs with
  | nil =>
    intro s now hv hmiss
    rcases hE : enforceDelay s now with ⟨s1, e1⟩
    simp only [checkUsernamePy, checkUsernamePre, hv, Bool.not_true, Bool.false_eq_true,
      if_false, hmiss, hE]
    by_cases hl : s.limitedMode
    · simp [hl, cacheLookup_cacheResult]
    · by_cases hcl : s.hasClient <;> simp [hl, hcl, cacheLookup_cacheResult]
  | cons resp rest ih =>
    intro s now hv hmiss
    rcases hE : enforceDelay s now with ⟨s1, e1⟩
    have hs1cache : s1.cache = s.cache := by
      have h := enforceDelay_cache s now
      rw [hE] at h
      exact h
    simp only [checkUsernamePy, checkUsernamePre, hv, Bool.not_true, Bool.false_eq_true,
      if_false, hmiss, hE]
    by_cases hl : s.limitedMode
    · simp [hl, cacheLookup_cacheResult]
    · by_cases hcl : s.hasClient
      · cases resp with
        | floodWait n =>
          rcases hF : handleFloodWait s1 n with ⟨s2, e2⟩
          have hs2cache : s2.cache = s1.cache := by
            have h := handleFloodWait_cache s1 n
            rw [hF] at h
            exact h
          have hmiss2 : (isCached s2 u now).2 = none := by
            rw [isCached_congr s2 s u now (by rw [hs2cache, hs1cache])]
            exact hmiss
          have ihh := ih s2 now hv hmiss2
          rcases hR : checkUsernamePy u s2 now rest with ⟨r, s3, e3⟩
          rw [hR] at ihh
          simpa [hl, hcl, hF, hR] using ihh
        | ok chatType isPremium => simp [hl, hcl, cacheLookup_cacheResult]
        | notOccupied => simp [hl, hcl, cacheLookup_cacheResult]
        | invalid => simp [hl, hcl, cacheLookup_cacheResult]
        | occupied => simp [hl, hcl, cacheLookup_cacheResult]
        | badRequest m => simp [hl, hcl, cacheLookup_cacheResult]
        | exc m => simp [hl, hcl, cacheLookup_cacheResult]
      · simp [hl, hcl, cacheLookup_cacheResult]

/-- C4: after a completed (non-cache-hit) verification of a valid username
at time `t1`, a second verification within `cache_timeout = 900` seconds
issues no request and no sleep, and returns exactly the stored result; the
state is untouched. -/
theorem C4_second_check_uses_cache (u : String) (s0 : PyState) (t1 t2 : ℚ)
    (rs rs2 : List ChatResp) (hv : isValidUsername u = true)
    (hmiss : (isCached s0 u t1).2 = none)
    (h2 : t2 - t1 < cacheTimeout) :
    checkUsernamePy u (checkUsernamePy u s0 t1 rs).2.1 t2 rs2 =
      ((checkUsernamePy u s0 t1 rs).1, (checkUsernamePy u s0 t1 rs).2.1, []) := by
  have hw := checkUsernamePy_writes_cache u rs s0 t1 hv hmiss
  have hcached : (isCached (checkUsernamePy u s0 t1 rs).2.1 u t2).2 =
      some (checkUsernamePy u s0 t1 rs).1 := by
    unfold isCached
    rw [hw]
    simp [h2]
  cases rs2 with
  | nil =>
    simp only [checkUsernamePy, checkUsernamePre, hv, Bool.not_true, Bool.false_eq_true,
      if_false, hcached]
  | cons a l =>
    simp only [checkUsernamePy, checkUsernamePre, hv, Bool.not_true, Bool.false_eq_true,
      if_false, hcached]

/-- The initial state of a limited-mode checker (no session string):
`last_check_time = 0`, `min_delay = 1.5`, empty cache. -/
def c4State : PyState := ⟨0, 3/2, [], false, true, false⟩

/-- C4 witness: a first check of "jaemin" at t=10 followed by a second at
t=100 (within the 900-second TTL) returns the stored result with an empty
event trace. -/
theorem C4_second_check_witness :
    checkUsernamePy "jaemin" ((checkUsernamePy "jaemin" c4State 10 []).2.1) 100 [] =
      ((checkUsernamePy "jaemin" c4State 10 []).1,
       (checkUsernamePy "jaemin" c4State 10 []).2.1, []) :=
  C4_second_check_uses_cache "jaemin" c4State 10 100 [] [] (by decide) (by decide)
    (by norm_num [cacheTimeout])


/-! ### C8 — rate limiting by minimum inter-admission delay -/

theorem enforceDelay_spacing (s : PyState) (t : ℚ) :
    s.lastCheckTime + s.minDelay ≤ (enforceDelay s t).1.lastCheckTime := by
  unfold enforceDelay
  dsimp only
  split_ifs with h
  · dsimp only
    linarith
  · dsimp only
    linarith

theorem enforceDelay_minDelay (s : PyState) (t : ℚ) :
    (enforceDelay s t).1.minDelay = s.minDelay := by
  unfold enforceDelay
  dsimp only
  split_ifs <;> rfl

/-- Every admission of a run starts at least one `min_delay` after the
state's last recorded check time. -/
theorem limiterAdmissions_ge (d : ℚ) (hd : 0 ≤ d) :
    ∀ (s : PyState) (ts : List ℚ), s.minDelay = d →
    ∀ a ∈ limiterAdmissions s ts, s.lastCheckTime + d ≤ a := by
  intro s ts
  induction ts generalizing s with
  | nil =>
    intro _ a ha
    simp [limiterAdmissions] at ha
  | cons t ts ih =>
    intro hmd a ha
    simp only [limiterAdmissions, List.mem_cons] at ha
    rcases ha with rfl | ha
    · have h := enforceDelay_spacing s t
      rw [hmd] at h
      exact h
    · have h1 := ih (enforceDelay s t).1 (by rw [enforceDelay_minDelay, hmd]) a ha
      have h2 := enforceDelay_spacing s t
      rw [hmd] at h2
      linarith

/-- Core window bound: a run of `_enforce_delay` admissions has at most one
admission inside any half-open window of length `min_delay`. -/
theorem limiterWindowCore (d tq : ℚ) (hd : 0 < d) :
    ∀ (s : PyState) (ts : List ℚ), s.minDelay = d →
    ((limiterAdmissions s ts).filter
      (fun a => decide (tq ≤ a) && decide (a < tq + d))).length ≤ 1 := by
  intro s ts
  induction ts generalizing s with
  | nil =>
    intro _
    simp [limiterAdmissions]
  | cons t ts ih =>
    intro hmd
    simp only [limiterAdmissions]
    by_cases hp : (decide (tq ≤ (enforceDelay s t).1.lastCheckTime) &&
        decide ((enforceDelay s t).1.lastCheckTime < tq + d)) = true
    · rw [List.filter_cons_of_pos (by exact hp)]
      have hnil : (limiterAdmissions (enforceDelay s t).1 ts).filter
          (fun a => decide (tq ≤ a) && decide (a < tq + d)) = [] := by
        rw [List.filter_eq_nil_iff]
        intro b hb
        have hge := limiterAdmissions_ge d (le_of_lt hd) (enforceDelay s t).1 ts
          (by rw [enforceDelay_minDelay, hmd]) b hb
        simp only [Bool.and_eq_true, decide_eq_true_eq] at hp ⊢
        intro hcon
        rcases hp with ⟨hp1, _⟩
        rcases hcon with ⟨_, hcon2⟩
        linarith
      rw [hnil]
      simp
    · rw [List.filter_cons_of_neg (by simpa using hp)]
      exact ih (enforceDelay s t).1 (by rw [enforceDelay_minDelay, hmd])

/-- C8 (supporting theorem for the code-bug record): the limiter the code
actually implements — `_enforce_delay`, a single recorded timestamp with a
minimum spacing `min_delay` — admits at most one request in any half-open
wall-clock window of `min_delay` seconds (that is, the claimed bound holds
with windowSeconds = min_delay and maxPerWindow = 1); each admission records
its timestamp into `last_check_time`. The sleep it performs, however, is a
blocking `time.sleep`, not a task suspension. -/
theorem C8_min_delay_window_bound (s : PyState) (ts : List ℚ) (tq : ℚ)
    (hd : 0 < s.minDelay) :
    ((limiterAdmissions s ts).filter
      (fun a => decide (tq ≤ a) && decide (a < tq + s.minDelay))).length ≤ 1 :=
  limiterWindowCore s.minDelay tq hd s ts rfl

/-- A checker state with the default `min_delay = RATE_LIMIT_DELAY = 1.5`. -/
def limiterState : PyState := ⟨0, 3/2, [], false, false, true⟩

/-- C8 witness: three calls arriving at 0, 0.5 and 1 seconds never place two
admissions inside one 1.5-second window. -/
theorem C8_min_delay_window_witness :
    ((limiterAdmissions limiterState [0, 1/2, 1]).filter
      (fun a => decide ((0 : ℚ) ≤ a) && decide (a < 0 + limiterState.minDelay))).length ≤ 1 :=
  C8_min_delay_window_bound limiterState [0, 1/2, 1] 0 (by norm_num [limiterState])


/-! ### C9 — remote rate-limit signals -/

/-- A world whose marketplace endpoint always answers HTTP 429; the profile
page answers 200 with an unremarkable body. -/
def w429 : FragWorld :=
  ⟨some ⟨200, "just a page", []⟩, some ⟨200, some "/api?hash=x"⟩,
   some ⟨429, false, []⟩, none, none, none, none⟩

set_option maxRecDepth 8192 in
/-- C9, counterexample: with the default budget `retries = 3` and an
always-429 marketplace, `check_fragment_api` stops after exactly three
searchAuctions POSTs and returns None — the 429 retries alone exhaust the
transient-error retry budget, so a 429 retry IS counted against it
(and the sleep taken is `base_delay * (attempt + 1)`, not a remotely
signalled duration). -/
theorem C9_429_consumes_budget_counterexample :
    (checkFragmentApi "a_b-c.d" w429 [] 3).1 = none ∧
    ((checkFragmentApi "a_b-c.d" w429 [] 3).2.2.count
      (Ev.req (Req.postSearchAuctions "a_b-c.d"))) = 3 := by
  decide

/-- C9 (amended): a pyrogram FloodWait of `n` seconds makes the checker
sleep `n + 0.5` seconds and re-run the same check on the next response,
with no retry counter involved; an HTTP 429 from the marketplace makes the
aiohttp checker sleep `base_delay * (attempt + 1)` and consume one unit of
the same `retries` budget that transient errors use — after `r` consecutive
429s the run ends with None having issued exactly `r` marketplace POSTs. -/
theorem C9_flood_wait_retries_and_429_budget :
    (∀ (u : String) (s : PyState) (now n : ℚ) (rest : List ChatResp),
      isValidUsername u = true → (isCached s u now).2 = none →
      s.limitedMode = false → s.hasClient = true →
      checkUsernamePy u s now (ChatResp.floodWait n :: rest) =
        ((checkUsernamePy u (handleFloodWait (enforceDelay s now).1 n).1 now rest).1,
         (checkUsernamePy u (handleFloodWait (enforceDelay s now).1 n).1 now rest).2.1,
         (enforceDelay s now).2 ++ [Ev.req (Req.clientGetChat u), Ev.sleep (n + 1/2)] ++
           (checkUsernamePy u (handleFloodWait (enforceDelay s now).1 n).1 now rest).2.2)) ∧
    (∀ (u : String) (w : FragWorld) (c : List String) (hm : FragHome)
       (ar : AuctionsResp) (api : String) (r k : Nat),
      w.home = some hm → hm.status = 200 → hm.apiUrl = some api →
      w.auctions = some ar → ar.status = 429 →
      (fragmentAttempts u w c r k).1 = none ∧
      ((fragmentAttempts u w c r k).2.2.count (Ev.req (Req.postSearchAuctions u))) = r) := by
  constructor
  · intro u s now n rest hv hmiss hl hcl
    rcases hE : enforceDelay s now with ⟨s1, e1⟩
    rcases hF : handleFloodWait s1 n with ⟨s2, e2⟩
    have he2 : e2 = [Ev.sleep (n + 1/2)] := by
      have h := congrArg Prod.snd hF
      simpa [handleFloodWait] using h.symm
    simp only [checkUsernamePy, checkUsernamePre, hv, Bool.not_true, Bool.false_eq_true,
      if_false, hmiss, hl, hcl, hE, hF, he2]
    simp
  · intro u w c hm ar api r k hw hst hap ha h429
    induction r generalizing k with
    | zero => simp [fragmentAttempts]
    | succ m ih =>
      have hne : ¬ (hm.status ≠ 200) := by simp [hst]
      obtain ⟨ih1, ih2⟩ := ih (k + 1)
      constructor
      · simp only [fragmentAttempts, hw, hne, if_false, hap, ha, h429, if_pos]
        simpa using ih1
      · simp only [fragmentAttempts, hw, hne, if_false, hap, ha, h429, if_pos]
        simp only [List.append_assoc, List.count_append]
        simp [ih2, List.count_cons, List.count_nil]
        omega

end S2P
